import Mathlib

/-!
Verification of the VSIX installer (`vsix_installer.py`): a shallow
embedding of its identifier parsing, upstream URL resolution, rate-limit
header interpretation, and the fetch-and-recover loop, together with
theorems settling the specification's claims about it.

Modelling conventions:
* HTTP responses are supplied as a finite script (`List FetchResult`)
  consumed one per loop iteration; running out of script is the
  distinguished outcome `Outcome.outOfScript` (a modelling artifact - the
  real program would simply block on the network).
* Observable side effects (issuing a fetch, invoking the installer,
  sleeping, popping the queue head, downloading the vscode-server bundle)
  are recorded as a trace of `Event`s.
* Wall-clock time is modelled at whole-second resolution by a single
  `now` epoch value; `datetime.timedelta.seconds` of a delta of `d` whole
  seconds is `d mod 86400` with a floor-style (Euclidean) mod.
* Python `int(s)` is modelled for an optional sign followed by decimal
  digits; `none` models the `ValueError` it raises otherwise.
-/

namespace VsixInstaller

/-- Characters matched by `[a-zA-Z0-9_-]`, the class of the `publisher`
and `extension` groups of the compiled regex (ASCII-only, as written). -/
def isWordChar (c : Char) : Bool :=
  c.isAlpha || c.isDigit || c == '_' || c == '-'

/-- Characters matched by `[0-9\.]`, the class of the `version` group. -/
def isVerChar (c : Char) : Bool :=
  c.isDigit || c == '.'

/-- Embeds `prog.match(entry)` followed by `.groupdict()` for the verbose
regex `(?P<publisher>[a-zA-Z0-9_-]+)(\.(?P<extension>[a-zA-Z0-9_-]+))(@(?P<version>[0-9\.]+))`.
`re.match` anchors at the start of the string only, so trailing characters
after the version are ignored.  Because `.` and `@` are outside the word
class, the greedy backtracking match is equivalent to taking the maximal
run of word characters for each of the first two groups and requiring the
literal separator right after it; the version group is the maximal run of
`[0-9.]` and must be non-empty.  `none` models `re.match` returning
`None`, on which `.groupdict()` raises `AttributeError`. -/
def progMatch (s : String) : Option (String × String × String) :=
  let l := s.toList
  let pub := l.takeWhile isWordChar
  if pub.isEmpty then none else
  match l.dropWhile isWordChar with
  | '.' :: r2 =>
    let ext := r2.takeWhile isWordChar
    if ext.isEmpty then none else
    match r2.dropWhile isWordChar with
    | '@' :: r4 =>
      let ver := r4.takeWhile isVerChar
      if ver.isEmpty then none
      else some (String.mk pub, String.mk ext, String.mk ver)
    | _ => none
  | _ => none

/-- Value of a list of decimal digit characters. -/
def digitsVal (l : List Char) : Int :=
  l.foldl (fun a c => a * 10 + ((c.toNat : Int) - 48)) 0

/-- Python `int(s)` on the header strings this program feeds it: an
optional sign followed by a non-empty run of decimal digits; `none`
models the `ValueError` raised on anything else (e.g. `int('oops')`). -/
def pyInt (s : String) : Option Int :=
  match s.toList with
  | '-' :: rest =>
    if !rest.isEmpty && rest.all Char.isDigit then some (-(digitsVal rest)) else none
  | '+' :: rest =>
    if !rest.isEmpty && rest.all Char.isDigit then some (digitsVal rest) else none
  | l =>
    if !l.isEmpty && l.all Char.isDigit then some (digitsVal l) else none

/-- The three optional rate-limit header fields of a response.  A field is
`none` when the header is absent from the response. -/
structure Headers where
  limit : Option String
  remaining : Option String
  reset : Option String
deriving Repr, DecidableEq

/-- Embeds `int(headers.get(name, '-1'))`: a missing header falls back to
the string `"-1"` before parsing, so absence yields the sentinel `-1`;
`none` models the `ValueError` raised on an unparsable present value. -/
def headerInt (field : Option String) : Option Int :=
  pyInt (field.getD "-1")

/-- Parses the three rate-limit headers in source order (limit, remaining,
reset); the first unparsable one raises, modelled as `none`. -/
def parseRateHeaders (h : Headers) : Option (Int × Int × Int) :=
  match headerInt h.limit with
  | none => none
  | some l =>
    match headerInt h.remaining with
    | none => none
    | some r =>
      match headerInt h.reset with
      | none => none
      | some s => some (l, r, s)

/-- Result of one `urllib.request.urlopen` call: a 2xx body with headers,
or an `HTTPError` carrying a status code and headers. -/
inductive FetchResult where
  | success (headers : Headers)
  | httpError (code : Nat) (headers : Headers)
deriving Repr, DecidableEq

/-- Observable side effects of the loop, in program order. -/
inductive Event where
  | fetch (url : String)
  | installCall (vscode : String) (dst : String) (exitStatus : Int)
  | pop (entry : String)
  | sleepFor (seconds : Int)
  | companionDownload
deriving Repr, DecidableEq

/-- Exceptions the loop can raise to `main`'s `except Exception` handler. -/
inductive PyErr where
  | attributeError
  | valueError
  | keyError
  | httpError (code : Nat)
deriving Repr, DecidableEq

/-- Terminal result of a whole run of `install`. -/
inductive Outcome where
  | allProcessed
  | sysExit
  | pyError (e : PyErr)
  | outOfScript
deriving Repr, DecidableEq

/-- Run configuration: the chosen upstream name, the two mode flags, the
per-run download directory, the epoch second at which sleeps are computed,
and the exit status the external installer reports (observed only). -/
structure Config where
  upstream : String
  downloadOnly : Bool
  insiders : Bool
  extDir : String
  now : Int
  installerExit : Int
deriving Repr, DecidableEq

/-- Embeds `URLS[upstream].format(**extension)`: literal substitution of
the three captured fields into the chosen template; `none` models the
`KeyError` on an unknown upstream name. -/
def renderUrl (upstream publisher extension version : String) : Option String :=
  if upstream = "marketplace" then
    some ("https://marketplace.visualstudio.com/_apis/public/gallery/publishers/"
      ++ publisher ++ "/vsextensions/" ++ extension ++ "/" ++ version ++ "/vspackage")
  else if upstream = "publisher" then
    some ("https://" ++ publisher
      ++ ".gallery.vsassets.io/_apis/public/gallery/publisher/" ++ publisher
      ++ "/extension/" ++ extension ++ "/" ++ version
      ++ "/assetbyname/Microsoft.VisualStudio.Services.VSIXPackage")
  else if upstream = "local" then
    some ("http://localhost:8000/" ++ publisher ++ "." ++ extension ++ "-"
      ++ version ++ ".vsix")
  else none

/-- `.seconds` of a Python `timedelta` of `d` whole seconds: `timedelta`
normalizes to `days` (floor) plus `seconds` in `[0, 86400)`, so `.seconds`
is the floor-style remainder of `d` mod 86400 - in particular it is large
and positive for a negative delta. -/
def timedeltaSeconds (d : Int) : Int :=
  Int.emod d 86400

/-- The argument of `time.sleep` on line 151:
`(datetime.datetime.fromtimestamp(reset) - datetime.datetime.now()).seconds`. -/
def sleepSeconds (reset now : Int) : Int :=
  timedeltaSeconds (reset - now)

/-- Events emitted by the tail of a loop iteration: the rate-limit sleep
block (gated on `limit != -1` only) followed by the vscode-server
companion download block (gated on the parsed extension name). -/
def tailEvents (extName : String) (limit reset now : Int) : List Event :=
  (if limit ≠ -1 then [Event.sleepFor (sleepSeconds reset now)] else [])
    ++ (if extName = "remote-ssh" then [Event.companionDownload] else [])

/-- Result of one iteration of the `while extensions:` loop on a
non-empty queue: continue (saying whether the head was popped and with
the new retry flag), raise an exception, or `raise SystemExit`. -/
inductive StepRes where
  | next (popHead : Bool) (retry : Bool) (events : List Event)
  | fatal (e : PyErr) (events : List Event)
  | exited (events : List Event)
deriving Repr, DecidableEq

/-- The events recorded by a step result. -/
def stepEvents : StepRes → List Event
  | .next _ _ events => events
  | .fatal _ events => events
  | .exited events => events

/-- One iteration of the loop body of `install` for head item `entry`,
given the current retry flag and the scripted response of the one fetch
this iteration performs.  Mirrors lines 99-171 of the source in order:
parse the entry (AttributeError on no match), render the URL (KeyError on
unknown upstream), fetch; on success parse the three headers (ValueError
propagates), invoke the installer unless download-only, pop, clear the
retry flag; on a non-429 `HTTPError` re-raise; on a 429 with the retry
flag set `raise SystemExit`; on a first 429 parse the headers, set the
retry flag, and keep the head unpopped; finally the sleep block and the
remote-ssh companion block run on every non-raising path. -/
def step (cfg : Config) (entry : String) (retry : Bool) (resp : FetchResult) : StepRes :=
  match progMatch entry with
  | none => .fatal .attributeError []
  | some (publisher, extName, version) =>
    match renderUrl cfg.upstream publisher extName version with
    | none => .fatal .keyError []
    | some url =>
      match resp with
      | .success h =>
        match parseRateHeaders h with
        | none => .fatal .valueError [Event.fetch url]
        | some (limit, _, reset) =>
          let vscode := if cfg.insiders then "code-insiders" else "code"
          let dst := cfg.extDir ++ "/" ++ entry ++ ".vsix"
          let installEvents :=
            if cfg.downloadOnly then []
            else [Event.installCall vscode dst cfg.installerExit]
          .next true false
            ([Event.fetch url] ++ installEvents ++ [Event.pop entry]
              ++ tailEvents extName limit reset cfg.now)
      | .httpError code h =>
        if code ≠ 429 then .fatal (.httpError code) [Event.fetch url]
        else if retry then .exited [Event.fetch url]
        else
          match parseRateHeaders h with
          | none => .fatal .valueError [Event.fetch url]
          | some (limit, _, reset) =>
            .next false true
              ([Event.fetch url] ++ tailEvents extName limit reset cfg.now)

/-- The `while extensions:` loop of `install`, returning the terminal
outcome, the queue as left behind at termination, and the event trace.
Each iteration on a non-empty queue consumes one scripted response; the
entry parse and URL render precede the fetch in the source, so their
failures are reported even on an empty script. -/
def installLoop (cfg : Config) (queue : List String) (retry : Bool)
    (script : List FetchResult) : Outcome × List String × List Event :=
  match queue with
  | [] => (.allProcessed, [], [])
  | entry :: rest =>
    match script with
    | [] =>
      match progMatch entry with
      | none => (.pyError .attributeError, entry :: rest, [])
      | some (publisher, extName, version) =>
        match renderUrl cfg.upstream publisher extName version with
        | none => (.pyError .keyError, entry :: rest, [])
        | some _ => (.outOfScript, entry :: rest, [])
    | resp :: script' =>
      match step cfg entry retry resp with
      | .next popHead retry' events =>
        let res := installLoop cfg (if popHead then rest else entry :: rest) retry' script'
        (res.1, res.2.1, events ++ res.2.2)
      | .fatal e events => (.pyError e, entry :: rest, events)
      | .exited events => (.sysExit, entry :: rest, events)

/-- Embeds `line.rstrip()`. -/
def rstrip (s : String) : String :=
  String.mk ((s.toList.reverse.dropWhile Char.isWhitespace).reverse)

/-- Queue construction in `main` (lines 183-186): the positional
command-line extensions, then the list-file lines appended to them via
`extensions.extend(...)` when a file was given. -/
def buildQueue (cliExtensions : List String) (fileLines : Option (List String)) :
    List String :=
  match fileLines with
  | none => cliExtensions
  | some ls => cliExtensions ++ ls.map rstrip

/-- A whole run: build the queue, run `install` with the retry flag
initially false. -/
def mainRun (cfg : Config) (cliExtensions : List String)
    (fileLines : Option (List String)) (script : List FetchResult) :
    Outcome × List String × List Event :=
  installLoop cfg (buildQueue cliExtensions fileLines) false script

/-- The process exit status for a run outcome.  `main` returns 1 from its
`except Exception` handler and 0 otherwise; a bare `raise SystemExit` is a
`BaseException`, not an `Exception`, so it escapes the handler, and
`SystemExit` with no argument makes the interpreter exit with status 0.
`none` on `outOfScript` (a modelling artifact). -/
def processExit : Outcome → Option Nat
  | .allProcessed => some 0
  | .pyError _ => some 1
  | .sysExit => some 0
  | .outOfScript => none

/-- Exit status of a whole run. -/
def mainExit (cfg : Config) (cliExtensions : List String)
    (fileLines : Option (List String)) (script : List FetchResult) : Option Nat :=
  processExit (mainRun cfg cliExtensions fileLines script).1

/-- Number of main-URL fetches in a trace. -/
def countFetch (t : List Event) : Nat :=
  t.countP (fun e => match e with | .fetch _ => true | _ => false)

/-- Number of vscode-server companion downloads in a trace. -/
def countCompanion (t : List Event) : Nat :=
  t.countP (fun e => match e with | .companionDownload => true | _ => false)

/-- Whether a trace contains a sleep. -/
def hasSleep (t : List Event) : Bool :=
  t.any (fun e => match e with | .sleepFor _ => true | _ => false)

/-- Concrete run configuration used by the closed theorems: the `local`
upstream, installing (not download-only), stable channel, a fixed
download directory, the clock at epoch second 1000, installer exiting 0. -/
def cfg0 : Config :=
  ⟨"local", false, false, "vsix-20240101-000000", 1000, 0⟩

/-- Concrete parsable rate-limit headers: limit 100, remaining 0, reset
at epoch second 1005 (5 seconds after the clock of `cfg0`). -/
def hdrs1005 : Headers :=
  ⟨some "100", some "0", some "1005"⟩

/-- Concrete parsable rate-limit headers whose reset, epoch second 995,
lies 5 seconds before the clock of `cfg0`. -/
def hdrs995 : Headers :=
  ⟨some "100", some "0", some "995"⟩

/-- Claim C1: the process exit code is 0 exactly when the whole queue was
processed successfully and 1 on any fatal error; in particular a second
consecutive 429 for a head item yields a non-zero process result.  The
code violates this: on the second consecutive 429 `install` raises a bare
`SystemExit`, which is a `BaseException` and escapes the `except
Exception` handler in `main`, and `SystemExit` with no argument makes the
interpreter exit with status 0.  This theorem evaluates the run at that
failing input: the outcome is the `SystemExit` termination, yet the
process exit status is 0, not the claimed non-zero value. -/
theorem c1_second_rate_limit_yields_exit_zero :
    (mainRun cfg0 ["pub.ext@1.0"] none
        [.httpError 429 hdrs1005, .httpError 429 hdrs1005]).1 = Outcome.sysExit ∧
      mainExit cfg0 ["pub.ext@1.0"] none
        [.httpError 429 hdrs1005, .httpError 429 hdrs1005] = some 0 :=
  ⟨rfl, rfl⟩

/-- Claim C2: when the head item receives a 429 while the retry flag is
already set (a second consecutive rate-limit for that item), the run
terminates immediately after the second response: the loop ends in the
`SystemExit` outcome, the queue still holds the head item and everything
behind it (no subsequent item is attempted, whatever responses `rs` the
script would have offered them), and the trace holds exactly the two
fetches of the head item plus the backoff events of the first 429. -/
theorem c2_second_rate_limit_terminates_run
    (cfg : Config) (entry : String) (rest : List String)
    (p x v u : String) (h1 h2 : Headers) (l r s : Int)
    (rs : List FetchResult)
    (hp : progMatch entry = some (p, x, v))
    (hu : renderUrl cfg.upstream p x v = some u)
    (hh : parseRateHeaders h1 = some (l, r, s)) :
    installLoop cfg (entry :: rest) false
        (.httpError 429 h1 :: .httpError 429 h2 :: rs)
      = (Outcome.sysExit, entry :: rest,
          [Event.fetch u] ++ tailEvents x l s cfg.now ++ [Event.fetch u]) := by
  simp [installLoop, step, hp, hu, hh]

/-- Witness for C2 at a concrete input: a one-item queue whose two
scripted responses are both 429 with parsable headers. -/
theorem c2_witness :
    installLoop cfg0 ["pub.ext@1.0"] false
        [.httpError 429 hdrs1005, .httpError 429 hdrs1005]
      = (Outcome.sysExit, ["pub.ext@1.0"],
          [Event.fetch "http://localhost:8000/pub.ext-1.0.vsix"]
            ++ tailEvents "ext" 100 1005 cfg0.now
            ++ [Event.fetch "http://localhost:8000/pub.ext-1.0.vsix"]) :=
  c2_second_rate_limit_terminates_run cfg0 "pub.ext@1.0" [] "pub" "ext" "1.0"
    "http://localhost:8000/pub.ext-1.0.vsix" hdrs1005 hdrs1005 100 0 1005 []
    (by decide) (by decide) (by decide)

/-- Claim C3: the claimed sleep duration is `max(0, resetAt - now)`, so a
reset timestamp in the past must sleep zero seconds.  The code instead
sleeps `(fromtimestamp(reset) - now).seconds`, and `timedelta.seconds` of
a negative delta is its floor-mod remainder in `[0, 86400)`: with the
reset 5 seconds in the past the computed duration is 86395, a spuriously
large sleep where the claim demands 0.  This theorem evaluates the sleep
computation and a full run at that failing input. -/
theorem c3_past_reset_sleeps_86395 :
    sleepSeconds 995 1000 = 86395 ∧
      max (0 : Int) (995 - 1000) = 0 ∧
      (mainRun cfg0 ["pub.ext@1.0"] none [.success hdrs995]).2.2
        = [Event.fetch "http://localhost:8000/pub.ext-1.0.vsix",
            Event.installCall "code" "vsix-20240101-000000/pub.ext@1.0.vsix" 0,
            Event.pop "pub.ext@1.0",
            Event.sleepFor 86395] := by
  refine ⟨by decide, by decide, rfl⟩

/-- Claim C4: on a first 429 for the head item (retry flag false) the
loop sets the retry flag, sleeps for the duration derived from
`X-RateLimit-Reset` (here in the ordinary range, so the sleep is exactly
`reset - now`), and re-attempts the same head item: the step keeps the
head unpopped, and the whole run equals the backoff events followed by
the loop restarted on the unchanged queue with the retry flag true. -/
theorem c4_first_rate_limit_retries_same_head
    (cfg : Config) (entry : String) (rest : List String)
    (p x v u : String) (h : Headers) (l r s : Int) (rs : List FetchResult)
    (hp : progMatch entry = some (p, x, v))
    (hu : renderUrl cfg.upstream p x v = some u)
    (hh : parseRateHeaders h = some (l, r, s))
    (hx : x ≠ "remote-ssh") (hl : l ≠ -1)
    (hge : cfg.now ≤ s) (hlt : s - cfg.now < 86400) :
    step cfg entry false (.httpError 429 h)
        = .next false true [Event.fetch u, Event.sleepFor (s - cfg.now)] ∧
      installLoop cfg (entry :: rest) false (.httpError 429 h :: rs)
        = ((installLoop cfg (entry :: rest) true rs).1,
            (installLoop cfg (entry :: rest) true rs).2.1,
            [Event.fetch u, Event.sleepFor (s - cfg.now)]
              ++ (installLoop cfg (entry :: rest) true rs).2.2) := by
  have hsleep : sleepSeconds s cfg.now = s - cfg.now := by
    simp only [sleepSeconds, timedeltaSeconds]
    exact Int.emod_eq_of_lt (by omega) (by omega)
  constructor
  · simp [step, hp, hu, hh, tailEvents, hx, hl, hsleep]
  · simp [installLoop, step, hp, hu, hh, tailEvents, hx, hl, hsleep]

/-- Witness for C4 at a concrete input: first 429 with reset 5 seconds in
the future, empty remainder of queue and script. -/
theorem c4_witness :
    step cfg0 "pub.ext@1.0" false (.httpError 429 hdrs1005)
        = .next false true [Event.fetch "http://localhost:8000/pub.ext-1.0.vsix",
            Event.sleepFor (1005 - cfg0.now)] ∧
      installLoop cfg0 ["pub.ext@1.0"] false [.httpError 429 hdrs1005]
        = ((installLoop cfg0 ["pub.ext@1.0"] true []).1,
            (installLoop cfg0 ["pub.ext@1.0"] true []).2.1,
            [Event.fetch "http://localhost:8000/pub.ext-1.0.vsix",
              Event.sleepFor (1005 - cfg0.now)]
              ++ (installLoop cfg0 ["pub.ext@1.0"] true []).2.2) :=
  c4_first_rate_limit_retries_same_head cfg0 "pub.ext@1.0" [] "pub" "ext" "1.0"
    "http://localhost:8000/pub.ext-1.0.vsix" hdrs1005 100 0 1005 []
    (by decide) (by decide) (by decide) (by decide) (by decide) (by decide) (by decide)

/-- Claim C5, counterexample: the claim says a missing or unparsable
rate-limit header field never makes the run fail.  An unparsable present
value does: `int('oops')` raises `ValueError` inside the response
handling, the exception propagates, and the run fails with process exit
status 1. -/
theorem c5_counterexample_unparsable_header_fails_run :
    (mainRun cfg0 ["pub.ext@1.0"] none [.success ⟨some "oops", none, none⟩]).1
        = Outcome.pyError PyErr.valueError ∧
      mainExit cfg0 ["pub.ext@1.0"] none [.success ⟨some "oops", none, none⟩]
        = some 1 :=
  ⟨rfl, rfl⟩

/-- Claim C5 as amended: a *missing* rate-limit header field is treated
as the absent-signal sentinel (-1) and never makes the run fail, and when
the limit signal is absent the loop does not sleep (the loop distinguishes
the absent sentinel from present numeric values); an *unparsable* present
field, however, raises a fatal error.  Here: a successful response whose
limit header is missing and whose other header fields are parsable
completes the iteration normally (the head is popped, no exception) and
its trace contains no sleep. -/
theorem c5_missing_header_is_no_signal
    (cfg : Config) (entry : String) (retry : Bool)
    (p x v u : String) (h : Headers) (r s : Int)
    (hp : progMatch entry = some (p, x, v))
    (hu : renderUrl cfg.upstream p x v = some u)
    (hlim : h.limit = none)
    (hr : headerInt h.remaining = some r)
    (hs : headerInt h.reset = some s) :
    step cfg entry retry (.success h)
        = .next true false
            ([Event.fetch u]
              ++ (if cfg.downloadOnly then []
                  else [Event.installCall (if cfg.insiders then "code-insiders" else "code")
                          (cfg.extDir ++ "/" ++ entry ++ ".vsix") cfg.installerExit])
              ++ [Event.pop entry]
              ++ (if x = "remote-ssh" then [Event.companionDownload] else [])) ∧
      hasSleep (stepEvents (step cfg entry retry (.success h))) = false := by
  have hl : headerInt h.limit = some (-1) := by rw [hlim]; rfl
  have hh : parseRateHeaders h = some (-1, r, s) := by
    simp [parseRateHeaders, hl, hr, hs]
  have hstep : step cfg entry retry (.success h)
      = .next true false
          ([Event.fetch u]
            ++ (if cfg.downloadOnly then []
                else [Event.installCall (if cfg.insiders then "code-insiders" else "code")
                        (cfg.extDir ++ "/" ++ entry ++ ".vsix") cfg.installerExit])
            ++ [Event.pop entry]
            ++ (if x = "remote-ssh" then [Event.companionDownload] else [])) := by
    simp [step, hp, hu, hh, tailEvents]
  refine ⟨hstep, ?_⟩
  rw [hstep]
  by_cases hxr : x = "remote-ssh" <;> cases hdo : cfg.downloadOnly <;>
    simp [hasSleep, stepEvents, hxr, hdo]

/-- Witness for C5 at a concrete input: a successful response with the
limit header absent and the other two parsable. -/
theorem c5_witness :
    step cfg0 "pub.ext@1.0" false (.success ⟨none, some "0", some "1005"⟩)
        = .next true false
            ([Event.fetch "http://localhost:8000/pub.ext-1.0.vsix"]
              ++ (if cfg0.downloadOnly then []
                  else [Event.installCall (if cfg0.insiders then "code-insiders" else "code")
                          (cfg0.extDir ++ "/" ++ "pub.ext@1.0" ++ ".vsix") cfg0.installerExit])
              ++ [Event.pop "pub.ext@1.0"]
              ++ (if "ext" = "remote-ssh" then [Event.companionDownload] else [])) ∧
      hasSleep (stepEvents (step cfg0 "pub.ext@1.0" false
          (.success ⟨none, some "0", some "1005"⟩))) = false :=
  c5_missing_header_is_no_signal cfg0 "pub.ext@1.0" false "pub" "ext" "1.0"
    "http://localhost:8000/pub.ext-1.0.vsix" ⟨none, some "0", some "1005"⟩ 0 1005
    (by decide) (by decide) rfl (by decide) (by decide)

/-- Claim C6, counterexample: the claim says a token with characters
outside the allowed alphabet after the version - trailing non-matching
characters - fails to parse and aborts the run.  `re.match` anchors only
at the start, so `"pub.ext@1.0!!"` parses as publisher `pub`, extension
`ext`, version `1.0`, and a run on it completes successfully. -/
theorem c6_counterexample_trailing_junk_accepted :
    progMatch "pub.ext@1.0!!" = some ("pub", "ext", "1.0") ∧
      (mainRun cfg0 ["pub.ext@1.0!!"] none [.success hdrs1005]).1
        = Outcome.allProcessed :=
  ⟨rfl, rfl⟩

/-- Claim C6 as amended: for every token on which the anchored match
fails (missing version, missing extension separator, invalid characters
before or inside the three fields - though trailing characters after a
matching head of the token are accepted), the run aborts with the
`AttributeError` arising from `.groupdict()` on `None`, no fetch is
issued, and the queue is left untouched. -/
theorem c6_no_match_aborts_queue_untouched
    (cfg : Config) (entry : String) (rest : List String) (retry : Bool)
    (script : List FetchResult)
    (hp : progMatch entry = none) :
    installLoop cfg (entry :: rest) retry script
      = (Outcome.pyError PyErr.attributeError, entry :: rest, []) := by
  cases script <;> simp [installLoop, step, hp]

/-- Witness for C6 at a concrete input: the token `"pub.ext"` has no
version field, so the match fails and the queue survives untouched. -/
theorem c6_witness :
    installLoop cfg0 ["pub.ext"] false [.success hdrs1005]
      = (Outcome.pyError PyErr.attributeError, ["pub.ext"], []) :=
  c6_no_match_aborts_queue_untouched cfg0 "pub.ext" [] false [.success hdrs1005]
    (by decide)

/-- Claim C7: on a successful fetch of the head item the step pops the
head and clears the retry flag; in download-only mode no installer
invocation appears in the trace, and otherwise the installer is invoked
with the downloaded artifact path - and since the theorem holds for every
`cfg`, in particular for every `cfg.installerExit`, the pop happens
regardless of the exit status the installer reports. -/
theorem c7_success_pops_and_install_policy
    (cfg : Config) (entry : String) (retry : Bool)
    (p x v u : String) (h : Headers) (l r s : Int)
    (hp : progMatch entry = some (p, x, v))
    (hu : renderUrl cfg.upstream p x v = some u)
    (hh : parseRateHeaders h = some (l, r, s)) :
    step cfg entry retry (.success h)
      = .next true false
          ([Event.fetch u]
            ++ (if cfg.downloadOnly then []
                else [Event.installCall (if cfg.insiders then "code-insiders" else "code")
                        (cfg.extDir ++ "/" ++ entry ++ ".vsix") cfg.installerExit])
            ++ [Event.pop entry] ++ tailEvents x l s cfg.now) := by
  simp [step, hp, hu, hh]

/-- Witness for C7 at a concrete input: a successful fetch with all three
headers parsable, installing mode. -/
theorem c7_witness :
    step cfg0 "pub.ext@1.0" false (.success hdrs1005)
      = .next true false
          ([Event.fetch "http://localhost:8000/pub.ext-1.0.vsix"]
            ++ (if cfg0.downloadOnly then []
                else [Event.installCall (if cfg0.insiders then "code-insiders" else "code")
                        (cfg0.extDir ++ "/" ++ "pub.ext@1.0" ++ ".vsix") cfg0.installerExit])
            ++ [Event.pop "pub.ext@1.0"] ++ tailEvents "ext" 100 1005 cfg0.now) :=
  c7_success_pops_and_install_policy cfg0 "pub.ext@1.0" false "pub" "ext" "1.0"
    "http://localhost:8000/pub.ext-1.0.vsix" hdrs1005 100 0 1005
    (by decide) (by decide) (by decide)

/-- Claim C8, counterexample: the claim puts the list-file tokens ahead
of the command-line identifiers, so on CLI token `cli.ext@1.0` and file
token `file.ext@2.0` it demands the queue
`[file.ext@2.0, cli.ext@1.0]`; the code builds
`[cli.ext@1.0, file.ext@2.0]` instead. -/
theorem c8_counterexample_file_tokens_not_ahead :
    buildQueue ["cli.ext@1.0"] (some ["file.ext@2.0"])
        = ["cli.ext@1.0", "file.ext@2.0"] ∧
      buildQueue ["cli.ext@1.0"] (some ["file.ext@2.0"])
        ≠ ["file.ext@2.0", "cli.ext@1.0"] := by
  decide

/-- Claim C8 as amended: when both a list file and command-line
identifiers are given, the queue is the command-line identifiers followed
by the list-file tokens (each line right-stripped), i.e. the file tokens
are appended *after* the command-line ones, not placed ahead of them. -/
theorem c8_file_tokens_appended_after_cli
    (cli : List String) (ls : List String) :
    buildQueue cli (some ls) = cli ++ ls.map rstrip :=
  rfl

/-- Claim C9: the backoff sleep is gated solely on the presence of a
parsable non-sentinel `X-RateLimit-Limit` value, not on the response
being a rate-limit error: for a response that is either a success or a
first-time 429, if the headers parse with limit value distinct from the
absent sentinel -1, the computed sleep appears in the iteration's
trace. -/
theorem c9_sleep_gated_on_limit_not_status
    (cfg : Config) (entry : String) (p x v u : String) (h : Headers)
    (l r s : Int) (resp : FetchResult)
    (hp : progMatch entry = some (p, x, v))
    (hu : renderUrl cfg.upstream p x v = some u)
    (hh : parseRateHeaders h = some (l, r, s))
    (hl : l ≠ -1)
    (hresp : resp = FetchResult.success h ∨ resp = FetchResult.httpError 429 h) :
    Event.sleepFor (sleepSeconds s cfg.now) ∈ stepEvents (step cfg entry false resp) := by
  rcases hresp with rfl | rfl <;>
    simp [step, stepEvents, hp, hu, hh, tailEvents, hl]

/-- Witness for C9 at a concrete input: a *successful* (2xx) response
carrying a parsable limit header still sleeps. -/
theorem c9_witness :
    (100 : Int) ≠ -1 ∧
      Event.sleepFor (sleepSeconds 1005 cfg0.now)
        ∈ stepEvents (step cfg0 "pub.ext@1.0" false (.success hdrs1005)) :=
  ⟨by decide,
    c9_sleep_gated_on_limit_not_status cfg0 "pub.ext@1.0" "pub" "ext" "1.0"
      "http://localhost:8000/pub.ext-1.0.vsix" hdrs1005 100 0 1005
      (.success hdrs1005) (by decide) (by decide) (by decide) (by decide)
      (Or.inl rfl)⟩

/-- Claim C10: the vscode-server companion block runs at the end of every
completed loop iteration whose parsed extension name is `remote-ssh`,
including a rate-limited one: when the head item parses to extension
`remote-ssh`, its first fetch returns a 429 with parsable headers and the
retry succeeds, the run completes and the companion bundle is downloaded
twice. -/
theorem c10_remote_ssh_companion_downloaded_twice
    (cfg : Config) (entry : String) (p v u : String) (h1 h2 : Headers)
    (l r s l2 r2 s2 : Int)
    (hp : progMatch entry = some (p, "remote-ssh", v))
    (hu : renderUrl cfg.upstream p "remote-ssh" v = some u)
    (hh1 : parseRateHeaders h1 = some (l, r, s))
    (hh2 : parseRateHeaders h2 = some (l2, r2, s2)) :
    (installLoop cfg [entry] false [.httpError 429 h1, .success h2]).1
        = Outcome.allProcessed ∧
      countCompanion
        (installLoop cfg [entry] false [.httpError 429 h1, .success h2]).2.2 = 2 := by
  constructor
  · simp [installLoop, step, hp, hu, hh1, hh2]
  · by_cases hl : l ≠ -1 <;> by_cases hl2 : l2 ≠ -1 <;>
      cases hdo : cfg.downloadOnly <;>
        simp [installLoop, step, hp, hu, hh1, hh2, tailEvents, countCompanion,
          hl, hl2, hdo, List.countP_append, List.countP_cons]

/-- Witness for C10 at a concrete input: head item
`ms.remote-ssh@1.0`, first response 429, second a success. -/
theorem c10_witness :
    (installLoop cfg0 ["ms.remote-ssh@1.0"] false
        [.httpError 429 hdrs1005, .success hdrs1005]).1 = Outcome.allProcessed ∧
      countCompanion (installLoop cfg0 ["ms.remote-ssh@1.0"] false
        [.httpError 429 hdrs1005, .success hdrs1005]).2.2 = 2 :=
  c10_remote_ssh_companion_downloaded_twice cfg0 "ms.remote-ssh@1.0" "ms" "1.0"
    "http://localhost:8000/ms.remote-ssh-1.0.vsix" hdrs1005 hdrs1005 100 0 1005 100 0 1005
    (by decide) (by decide) (by decide) (by decide)

end VsixInstaller
